import Mathlib

/-!
Shallow embedding of the bric_pay concurrent ledger mutation engine.

Sources embedded (file and symbol names follow the repository):
* src/src/models/user.py, src/src/models/transaction.py — the Account / Transaction
  data model (only the fields the ledger engine reads or writes: account_number,
  balance, and the transaction record fields).
* src/src/utils/transaction_manager.py — TransactionManager.transaction (atomic
  scope: commit on normal return, rollback and re-raise on error),
  TransactionManager.with_retry / with_connection_retry (bounded retries with
  exponential backoff), atomic_operation.
* src/src/services/deposit_service.py — DepositService.deposit_funds.
* src/src/services/transfer_service.py — TransferService.transfer_funds and
  TransferService.validate_transfer_preconditions.
* src/src/schemas.py — the TransferRequest pydantic validators.
* src/src/routes/transfer_routes.py — the POST /transfer route handler.

Modelling conventions:
* Money is exact fixed-point with 2 decimals in the source (Numeric(10,2), amounts
  rounded to 2 decimals by the schema layer); it is modelled as an integer number
  of cents.
* A database session / the persistent store is a value of type DB; a unit of work
  is a function DB -> result x DB, where the returned DB holds the session's
  pending writes.  Commit keeps the returned DB, rollback discards it.
* Python exceptions are the inductive PyExc; raising is returning Except.error.
* Lock acquisition outcomes (threading.Lock.acquire with a timeout) depend on
  other threads, so they are Bool parameters of the operations; every acquire or
  release performed by the code is recorded in an event trace so that lock
  ordering and lock leakage are provable statements.
* Unexpected infrastructure failures inside a critical section (a query or
  refresh raising) are modelled by an Option PyExc fault parameter.
-/

namespace BricPay

/-- Python exception classes distinguished by the engine
(sqlalchemy.exc.OperationalError, DisconnectionError, TimeoutError,
IntegrityError, the builtin ValueError, and anything else). -/
inductive PyExc where
  | operationalError (msg : String)
  | disconnectionError (msg : String)
  | sqlTimeoutError (msg : String)
  | integrityError (msg : String)
  | valueError (msg : String)
  | otherError (msg : String)
deriving DecidableEq, Repr

/-- Message carried by an exception (Python str(e)). -/
def PyExc.msg : PyExc → String
  | .operationalError m => m
  | .disconnectionError m => m
  | .sqlTimeoutError m => m
  | .integrityError m => m
  | .valueError m => m
  | .otherError m => m

/-- TransactionType enum from src/src/models/transaction.py. -/
inductive TransactionType where
  | DEPOSIT
  | WITHDRAWAL
  | TRANSFER
deriving DecidableEq, Repr

/-- One row of the transactions table (src/src/models/transaction.py): nullable
source account, destination account, amount (cents), kind.  The auto-increment id
and created_at timestamp are not modelled; the append-only table is a list in
insertion order. -/
structure Transaction where
  from_account : Option String
  to_account : String
  amount : Int
  transaction_type : TransactionType
deriving DecidableEq, Repr

/-- The ledger store: the users table projected to (account_number, balance in
cents) rows in table order, and the append-only transactions table. -/
structure DB where
  accounts : List (String × Int)
  transactions : List Transaction
deriving DecidableEq, Repr

/-- db.query(User).filter_by(account_number=a).first() projected to the balance:
the first row whose account number matches, if any. -/
def lookupBalance : List (String × Int) → String → Option Int
  | [], _ => none
  | (k, v) :: rest, a => if k = a then some v else lookupBalance rest a

/-- Overwrite the balance of the first row whose account number matches (the row
object returned by .first() is mutated and flushed). -/
def setBalance : List (String × Int) → String → Int → List (String × Int)
  | [], _, _ => []
  | (k, v) :: rest, a, b => if k = a then (k, b) :: rest else (k, v) :: setBalance rest a b

/-- Modelled from the spec: the services call user.update_balance(delta)
(src/src/services/deposit_service.py line 70, transfer_service.py lines 101 and
104) but no update_balance method is defined on the User model in
src/src/models/user.py or anywhere else under src/.  The spec fixes its meaning:
section 4.4 step 3 "Increase balance by amount" and section 4.5 step 6 "Debit
source, credit destination", i.e. the stored balance becomes balance + delta. -/
def User.update_balance (accounts : List (String × Int)) (acct : String) (delta : Int) :
    List (String × Int) :=
  match lookupBalance accounts acct with
  | some b => setBalance accounts acct (b + delta)
  | none => accounts

theorem lookupBalance_setBalance_self (l : List (String × Int)) (k : String) (v b : Int)
    (h : lookupBalance l k = some b) :
    lookupBalance (setBalance l k v) k = some v := by
  induction l with
  | nil => simp [lookupBalance] at h
  | cons hd tl ih =>
    obtain ⟨k0, v0⟩ := hd
    by_cases hk : k0 = k
    · subst hk
      simp [lookupBalance, setBalance]
    · simp only [lookupBalance, setBalance, if_neg hk] at h ⊢
      exact ih h

theorem lookupBalance_setBalance_ne (l : List (String × Int)) (k k2 : String) (v : Int)
    (h : k ≠ k2) :
    lookupBalance (setBalance l k v) k2 = lookupBalance l k2 := by
  induction l with
  | nil => simp [setBalance]
  | cons hd tl ih =>
    obtain ⟨k0, v0⟩ := hd
    by_cases hk : k0 = k
    · subst hk
      simp only [setBalance, if_pos rfl, lookupBalance, if_neg h]
    · simp only [setBalance, if_neg hk, lookupBalance]
      by_cases hk2 : k0 = k2
      · simp [hk2]
      · simp only [if_neg hk2]
        exact ih

/-- Python string comparison a < b on the underlying code points (used by
transfer_service.py line 58 to order the two account locks), written as
structural recursion over the character lists so that it evaluates. -/
def strLtChars : List Char → List Char → Bool
  | [], [] => false
  | [], _ :: _ => true
  | _ :: _, [] => false
  | a :: as, b :: bs =>
    if a.toNat < b.toNat then true
    else if b.toNat < a.toNat then false
    else strLtChars as bs

/-- Lexicographic comparison of account-number strings (Python s1 < s2). -/
def strLt (a b : String) : Bool := strLtChars a.data b.data

/-- The lexicographically smaller of two strings under strLt. -/
def stringMin (a b : String) : String := if strLt a b then a else b

/-- The lexicographically larger of two strings under strLt. -/
def stringMax (a b : String) : String := if strLt a b then b else a

theorem strLtChars_asymm :
    ∀ as bs : List Char, strLtChars as bs = true → strLtChars bs as = false := by
  intro as
  induction as with
  | nil =>
    intro bs h
    cases bs with
    | nil => simp [strLtChars] at h
    | cons b bs2 => simp [strLtChars]
  | cons a as2 ih =>
    intro bs h
    cases bs with
    | nil => simp [strLtChars] at h
    | cons b bs2 =>
      simp only [strLtChars] at h ⊢
      by_cases h1 : a.toNat < b.toNat
      · have h2 : ¬ b.toNat < a.toNat := Nat.lt_asymm h1
        simp [h1, h2]
      · by_cases h2 : b.toNat < a.toNat
        · simp [h1, h2] at h
        · simp only [h1, h2, if_false, if_neg h1, if_neg h2] at h ⊢
          exact ih bs2 h

theorem char_toNat_inj {a b : Char} (h : a.toNat = b.toNat) : a = b := by
  apply Char.ext
  obtain ⟨⟨av, hav⟩, ha⟩ := a
  obtain ⟨⟨bv, hbv⟩, hb⟩ := b
  simp only [Char.toNat, UInt32.toNat] at h
  simp_all

theorem strLtChars_total :
    ∀ as bs : List Char, as ≠ bs → strLtChars as bs = true ∨ strLtChars bs as = true := by
  intro as
  induction as with
  | nil =>
    intro bs h
    cases bs with
    | nil => exact absurd rfl h
    | cons b bs2 => left; simp [strLtChars]
  | cons a as2 ih =>
    intro bs h
    cases bs with
    | nil => right; simp [strLtChars]
    | cons b bs2 =>
      by_cases h1 : a.toNat < b.toNat
      · left
        simp [strLtChars, h1]
      · by_cases h2 : b.toNat < a.toNat
        · right
          simp [strLtChars, h2]
        · have hab : a = b := char_toNat_inj (Nat.le_antisymm (Nat.not_lt.mp h2) (Nat.not_lt.mp h1))
          subst hab
          have htl : as2 ≠ bs2 := by
            intro he
            exact h (by rw [he])
          rcases ih bs2 htl with hl | hr
          · left
            simp [strLtChars, h1, h2, hl]
          · right
            simp [strLtChars, h1, h2, hr]

theorem strLt_asymm {a b : String} (h : strLt a b = true) : strLt b a = false :=
  strLtChars_asymm a.data b.data h

theorem strLt_total {a b : String} (h : a ≠ b) : strLt a b = true ∨ strLt b a = true := by
  refine strLtChars_total a.data b.data ?_
  intro hd
  apply h
  cases a
  cases b
  simp_all

theorem stringMin_comm {a b : String} (h : a ≠ b) : stringMin a b = stringMin b a := by
  unfold stringMin
  rcases strLt_total h with hl | hl
  · rw [if_pos hl, if_neg (by simp [strLt_asymm hl])]
  · rw [if_pos hl, if_neg (by simp [strLt_asymm hl])]

theorem stringMin_strictly_smaller {a b : String} (h : a ≠ b) :
    (stringMin a b = a ∧ strLt (stringMin a b) b = true) ∨
    (stringMin a b = b ∧ strLt (stringMin a b) a = true) := by
  unfold stringMin
  rcases strLt_total h with hl | hl
  · left
    rw [if_pos hl]
    exact ⟨rfl, hl⟩
  · right
    rw [if_neg (by simp [strLt_asymm hl])]
    exact ⟨rfl, hl⟩

/-- Format a number of cents the way the services format balances and amounts
in messages (Python f-string with :.2f on an exact 2-decimal value). -/
def fmtCents (n : Int) : String :=
  let sign := if n < 0 then "-" else ""
  let m := n.natAbs
  let r := m % 100
  sign ++ toString (m / 100) ++ "." ++ (if r < 10 then "0" ++ toString r else toString r)

/-- DepositRequest after schema validation (src/src/schemas.py): account number
and a positive 2-decimal amount, held in cents. -/
structure DepositRequest where
  account_number : String
  amount : Int
deriving DecidableEq, Repr

/-- DepositResponse (src/src/schemas.py). -/
structure DepositResponse where
  account_number : String
  new_balance : Int
  deposited_amount : Int
  message : String
deriving DecidableEq, Repr

/-- TransferRequest after schema validation (src/src/schemas.py). -/
structure TransferRequest where
  from_account : String
  to_account : String
  amount : Int
deriving DecidableEq, Repr

/-- TransferResponse (src/src/schemas.py); balances in cents. -/
structure TransferResponse where
  transfer_id : String
  from_account : String
  to_account : String
  amount : Int
  from_balance : Int
  to_balance : Int
  message : String
deriving DecidableEq, Repr

/-- TransactionManager.transaction (src/src/utils/transaction_manager.py lines
30-56): run the unit of work against the session; on normal return commit (keep
the session state the work produced); on any exception roll back (discard every
pending write, returning to the pre-transaction state) and re-raise the same
exception. -/
def TransactionManager.transaction {α : Type} (db : DB)
    (work : DB → Except PyExc α × DB) : Except PyExc α × DB :=
  match work db with
  | (.ok a, db2) => (.ok a, db2)
  | (.error e, _) => (.error e, db)

/-- atomic_operation decorator (src/src/utils/transaction_manager.py lines
237-272): wrap the function in TransactionManager.transaction on the session
found among its arguments. -/
def atomic_operation {α : Type} (work : DB → Except PyExc α × DB) :
    DB → Except PyExc α × DB :=
  fun db => TransactionManager.transaction db work

/-- Exceptions retried by TransactionManager.with_retry (transaction_manager.py
line 82: OperationalError, DisconnectionError, SQLAlchemyTimeoutError).
IntegrityError and every other exception class, ValueError included, propagate
immediately (lines 93-101). -/
def isTransient : PyExc → Bool
  | .operationalError _ => true
  | .disconnectionError _ => true
  | .sqlTimeoutError _ => true
  | _ => false

/-- TransactionManager.MAX_RETRIES (transaction_manager.py line 25). -/
def TransactionManager.MAX_RETRIES : Nat := 3

/-- TransactionManager.RETRY_DELAY of 0.1 s (transaction_manager.py line 26),
expressed in milliseconds. -/
def TransactionManager.RETRY_DELAY : Nat := 100

/-- Lock-manager event: an acquire attempt on a threading.Lock (ok = whether the
lock was obtained within the timeout) or a release call (ok = false when the
release raised because the lock was not held, which the services catch and log). -/
inductive LockEvent where
  | acq (acct : String) (ok : Bool)
  | rel (acct : String) (ok : Bool)
deriving DecidableEq, Repr

/-- Effect of one lock event on the stack of currently held account locks. -/
def applyEvent (held : List String) : LockEvent → List String
  | .acq a true => a :: held
  | .acq _ false => held
  | .rel a true => held.erase a
  | .rel _ false => held

/-- Account locks still held after a trace of lock events. -/
def heldAfter (evs : List LockEvent) : List String := evs.foldl applyEvent []

/-- Result of one service call under the retry harness: the outcome, the final
store state, the backoff delays slept (ms), the number of times the wrapped
function ran, and the lock events it produced. -/
structure ServiceRun (α : Type) where
  result : Except PyExc α
  db : DB
  delays : List Nat
  attempts : Nat
  trace : List LockEvent
deriving Repr

/-- Loop body of TransactionManager.with_retry (transaction_manager.py lines
75-104): for attempt in range(max_retries + 1) run the wrapped function; return
its value on success; on a transient exception sleep retry_delay * 2 ** attempt
and continue while attempt < max_retries, else re-raise; on any other exception
re-raise at once.  fuel = max_retries - attempt counts the retries still
allowed, so the loop is structural recursion on fuel. -/
def with_retry_go {α : Type} (op : Nat → DB → (Except PyExc α × DB) × List LockEvent)
    (baseDelay : Nat) : Nat → Nat → DB → ServiceRun α
  | attempt, 0, db =>
    match op attempt db with
    | ((r, db2), tr) => ⟨r, db2, [], 1, tr⟩
  | attempt, fuel + 1, db =>
    match op attempt db with
    | ((.ok a, db2), tr) => ⟨.ok a, db2, [], 1, tr⟩
    | ((.error e, db2), tr) =>
      if isTransient e then
        let r := with_retry_go op baseDelay (attempt + 1) fuel db2
        ⟨r.result, r.db, baseDelay * 2 ^ attempt :: r.delays, r.attempts + 1, tr ++ r.trace⟩
      else ⟨.error e, db2, [], 1, tr⟩

/-- TransactionManager.with_retry(max_retries, retry_delay) applied to an
operation; with_connection_retry(max_retries) (transaction_manager.py lines
274-289) instantiates it with the default retry_delay. -/
def TransactionManager.with_retry {α : Type}
    (op : Nat → DB → (Except PyExc α × DB) × List LockEvent)
    (baseDelay maxRetries : Nat) (db : DB) : ServiceRun α :=
  with_retry_go op baseDelay 0 maxRetries db

/-- Python except-clause ladder shared by deposit_funds and transfer_funds: a
ValueError is re-raised unchanged; any other exception is wrapped in a
ValueError whose message prefixes the original (deposit_service.py lines
97-104, transfer_service.py lines 135-142). -/
def wrapExc (prefixMsg : String) : PyExc → PyExc
  | .valueError m => .valueError m
  | e => .valueError (prefixMsg ++ e.msg)

/-- Body of DepositService.deposit_funds (deposit_service.py lines 33-111), the
function under the atomic_operation and with_connection_retry decorators.
lockOk is the outcome of account_lock.acquire(timeout=10).  Paths:
* acquire times out: raise ValueError (line 53); the finally block's
  account_lock.release() then raises because the lock is not held, which is
  caught and logged (lines 105-111).
* account missing: raise ValueError (line 61); finally releases the lock.
* otherwise: db.refresh is a no-op against the same session state,
  user.update_balance(amount), append one DEPOSIT transaction row, and return
  the response built from the updated balance. -/
def deposit_body (lockOk : Bool) (req : DepositRequest) (db : DB) :
    (Except PyExc DepositResponse × DB) × List LockEvent :=
  if lockOk then
    match lookupBalance db.accounts req.account_number with
    | none =>
      ((.error (.valueError ("Account " ++ req.account_number ++ " not found")), db),
        [.acq req.account_number true, .rel req.account_number true])
    | some b =>
      let db2 : DB :=
        { accounts := User.update_balance db.accounts req.account_number req.amount,
          transactions := db.transactions ++
            [⟨none, req.account_number, req.amount, .DEPOSIT⟩] }
      ((.ok ⟨req.account_number, b + req.amount, req.amount,
             "Successfully deposited $" ++ fmtCents req.amount⟩, db2),
        [.acq req.account_number true, .rel req.account_number true])
  else
    ((.error (.valueError ("Timeout acquiring lock for account " ++ req.account_number)), db),
      [.acq req.account_number false, .rel req.account_number false])

/-- Body of TransferService.transfer_funds (transfer_service.py lines 36-150).
lock1Ok / lock2Ok are the outcomes of the two ordered lock acquisitions; fault
injects an exception raised by the store between lock acquisition and the
account reads (a query or refresh failing), routed through the except ladder of
lines 135-142.  Lock ordering follows lines 57-63: the lexicographically
smaller account number is locked first.  The finally block (lines 143-150)
releases second_lock then first_lock inside one try, so if releasing
second_lock raises (it was never acquired) the first release is skipped; on the
explicit second-acquire-timeout path the code already released first_lock at
line 70 before raising. -/
def transfer_body (lock1Ok lock2Ok : Bool) (fault : Option PyExc) (tid : String)
    (req : TransferRequest) (db : DB) :
    (Except PyExc TransferResponse × DB) × List LockEvent :=
  let firstA := if strLt req.from_account req.to_account then req.from_account
                else req.to_account
  let secondA := if strLt req.from_account req.to_account then req.to_account
                 else req.from_account
  if lock1Ok then
    if lock2Ok then
      let fullTrace : List LockEvent :=
        [.acq firstA true, .acq secondA true, .rel secondA true, .rel firstA true]
      match fault with
      | some e => ((.error (wrapExc "Failed to process transfer: " e), db), fullTrace)
      | none =>
        match lookupBalance db.accounts req.from_account,
              lookupBalance db.accounts req.to_account with
        | none, _ =>
          ((.error (.valueError ("Source account " ++ req.from_account ++ " not found")), db),
            fullTrace)
        | some _, none =>
          ((.error (.valueError ("Destination account " ++ req.to_account ++ " not found")), db),
            fullTrace)
        | some bf, some bt =>
          if bf < req.amount then
            ((.error (.valueError ("Insufficient balance. Available: $" ++ fmtCents bf ++
               ", Required: $" ++ fmtCents req.amount)), db), fullTrace)
          else if bf < req.amount then
            -- re-check of lines 94-97 after db.refresh, a no-op re-read here
            ((.error (.valueError ("Insufficient balance after verification. Available: $" ++
               fmtCents bf ++ ", Required: $" ++ fmtCents req.amount)), db), fullTrace)
          else
            let accounts1 := User.update_balance db.accounts req.from_account (-req.amount)
            let accounts2 := User.update_balance accounts1 req.to_account req.amount
            let db2 : DB :=
              { accounts := accounts2,
                transactions := db.transactions ++
                  [⟨some req.from_account, req.to_account, req.amount, .TRANSFER⟩] }
            ((.ok ⟨tid, req.from_account, req.to_account, req.amount,
                   bf - req.amount, bt + req.amount,
                   "Successfully transferred $" ++ fmtCents req.amount⟩, db2),
              fullTrace)
    else
      ((.error (.valueError ("Timeout acquiring lock for account " ++ secondA)), db),
        [.acq firstA true, .acq secondA false, .rel firstA true, .rel secondA false])
  else
    ((.error (.valueError ("Timeout acquiring lock for account " ++ firstA)), db),
      [.acq firstA false, .rel secondA false])

/-- atomic_operation around a body that also produces a lock-event trace: the
storage transaction commits or rolls back exactly as TransactionManager.transaction
prescribes, while the lock events are not transactional state and stay. -/
def atomic_traced {α : Type} (body : DB → (Except PyExc α × DB) × List LockEvent)
    (db : DB) : (Except PyExc α × DB) × List LockEvent :=
  (TransactionManager.transaction db (fun d => (body d).1), (body db).2)

/-- DepositService.deposit_funds as exposed: with_connection_retry(max_retries=3)
around atomic_operation around the body (deposit_service.py lines 30-33). -/
def DepositService.deposit_funds (lockOk : Bool) (db : DB) (req : DepositRequest) :
    ServiceRun DepositResponse :=
  TransactionManager.with_retry (fun _ d => atomic_traced (deposit_body lockOk req) d)
    TransactionManager.RETRY_DELAY 3 db

/-- TransferService.transfer_funds as exposed: with_connection_retry(max_retries=3)
around atomic_operation around the body (transfer_service.py lines 33-36). -/
def TransferService.transfer_funds (lock1Ok lock2Ok : Bool) (fault : Option PyExc)
    (tid : String) (db : DB) (req : TransferRequest) : ServiceRun TransferResponse :=
  TransactionManager.with_retry
    (fun _ d => atomic_traced (transfer_body lock1Ok lock2Ok fault tid req) d)
    TransactionManager.RETRY_DELAY 3 db

/-- Python str.isdigit as used by the schema validators: nonempty and all
characters are decimal digits. -/
def isAllDigits (v : String) : Bool := v.data ≠ [] && v.data.all Char.isDigit

/-- validate_account_numbers (schemas.py lines 186-198): first failing check, if
any, exactly as the validator raises. -/
def accountNumberError (v : String) : Option String :=
  if isAllDigits v = false then some "Account number must contain only digits"
  else if v.data.length < 8 ∨ 12 < v.data.length then
    some "Account number must be between 8 and 12 digits"
  else if v.data.head? = some '0' then some "Account number cannot start with zero"
  else none

/-- validate_amount for transfers (schemas.py lines 200-213) over an exact
2-decimal amount in cents. -/
def amountError (amount : Int) : Option String :=
  if amount ≤ 0 then some "Transfer amount must be positive"
  else if 100000000 < amount then some "Transfer amount cannot exceed $1,000,000"
  else if amount < 1 then some "Transfer amount must be at least $0.01"
  else none

/-- Pydantic validation of a TransferRequest body: each field validator runs
independently and the errors are collected; validate_different_accounts
(schemas.py lines 215-220) runs only when both account fields passed their own
format validator (it needs from_account present in values). -/
def validateTransferRequest (fromA toA : String) (amount : Int) : List String :=
  let fromErr := accountNumberError fromA
  let toErr := accountNumberError toA
  let sameErr : Option String :=
    if fromErr = none ∧ toErr = none ∧ toA = fromA then
      some "Cannot transfer to the same account"
    else none
  let amtErr := amountError amount
  fromErr.toList ++ toErr.toList ++ sameErr.toList ++ amtErr.toList

/-- Outcome of the POST /api/v1/transfer route (transfer_routes.py lines 16-59):
schema rejection and ValueError both map to HTTP 400, success to 200, any other
exception to 500. -/
inductive RouteOutcome where
  | success (resp : TransferResponse)
  | validationError (errs : List String)
  | transferFailed (details : String)
  | internalError
deriving DecidableEq, Repr

/-- HTTP status code the route answers with. -/
def statusCode : RouteOutcome → Nat
  | .success _ => 200
  | .validationError _ => 400
  | .transferFailed _ => 400
  | .internalError => 500

/-- transfer_funds route handler (transfer_routes.py lines 16-59): parse and
validate the body (ValidationError -> 400 before the service, hence before any
lock), call TransferService.transfer_funds, map ValueError to 400 and any other
exception to 500. -/
def transfer_route (lock1Ok lock2Ok : Bool) (fault : Option PyExc) (tid : String)
    (db : DB) (fromA toA : String) (amount : Int) :
    (RouteOutcome × DB) × List LockEvent :=
  let errs := validateTransferRequest fromA toA amount
  if errs = [] then
    let run := TransferService.transfer_funds lock1Ok lock2Ok fault tid db
      ⟨fromA, toA, amount⟩
    match run.result with
    | .ok resp => ((.success resp, run.db), run.trace)
    | .error (.valueError m) => ((.transferFailed m, run.db), run.trace)
    | .error _ => ((.internalError, run.db), run.trace)
  else ((.validationError errs, db), [])

/-- account_info entry for the source account in validate_transfer_preconditions. -/
structure FromAccountInfo where
  accountFound : Bool
  balance : Int
  sufficient_funds : Bool
deriving DecidableEq, Repr

/-- account_info entry for the destination account. -/
structure ToAccountInfo where
  accountFound : Bool
  balance : Int
deriving DecidableEq, Repr

/-- The validation_result dict built by validate_transfer_preconditions. -/
structure ValidationResult where
  valid : Bool
  errors : List String
  warnings : List String
  from_info : Option FromAccountInfo
  to_info : Option ToAccountInfo
deriving DecidableEq, Repr

/-- TransferService.validate_transfer_preconditions (transfer_service.py lines
256-328): a read-only report.  fromLocked / toLocked are the lock.locked()
snapshots, healthy the connection health probe; fault models an exception
raised by the first query, which the surrounding try converts into a
valid=False report (lines 324-326) instead of propagating.  The session is
returned untouched on every path. -/
def TransferService.validate_transfer_preconditions (fromLocked toLocked healthy : Bool)
    (fault : Option String) (db : DB) (req : TransferRequest) : ValidationResult × DB :=
  match fault with
  | some m => (⟨false, ["Validation error: " ++ m], [], none, none⟩, db)
  | none =>
    let fromRes : Bool × List String × Option FromAccountInfo :=
      match lookupBalance db.accounts req.from_account with
      | none => (false, (["Source account " ++ req.from_account ++ " not found"], none))
      | some bf =>
        if bf < req.amount then
          (false, (["Insufficient balance. Available: $" ++ fmtCents bf ++
                    ", Required: $" ++ fmtCents req.amount],
                   some ⟨true, bf, decide (req.amount ≤ bf)⟩))
        else (true, ([], some ⟨true, bf, decide (req.amount ≤ bf)⟩))
    let toRes : Bool × List String × Option ToAccountInfo :=
      match lookupBalance db.accounts req.to_account with
      | none => (false, (["Destination account " ++ req.to_account ++ " not found"], none))
      | some bt => (true, ([], some ⟨true, bt⟩))
    let sameErrs : List String :=
      if req.from_account = req.to_account then ["Cannot transfer to the same account"] else []
    let warnings : List String :=
      (if fromLocked then ["Source account " ++ req.from_account ++
          " is currently being used in another transfer"] else []) ++
      (if toLocked then ["Destination account " ++ req.to_account ++
          " is currently being used in another transfer"] else []) ++
      (if healthy then [] else ["Database connection health check failed"])
    (⟨fromRes.1 && toRes.1 && sameErrs.isEmpty,
      fromRes.2.1 ++ toRes.2.1 ++ sameErrs, warnings, fromRes.2.2, toRes.2.2⟩, db)

theorem with_retry_first_ok {α : Type} (op : Nat → DB → (Except PyExc α × DB) × List LockEvent)
    (d m : Nat) (db : DB) (a : α) (db2 : DB) (tr : List LockEvent)
    (h : op 0 db = ((.ok a, db2), tr)) :
    TransactionManager.with_retry op d m db = ⟨.ok a, db2, [], 1, tr⟩ := by
  cases m with
  | zero => simp [TransactionManager.with_retry, with_retry_go, h]
  | succ n => simp [TransactionManager.with_retry, with_retry_go, h]

theorem with_retry_first_nonTransient {α : Type}
    (op : Nat → DB → (Except PyExc α × DB) × List LockEvent)
    (d m : Nat) (db : DB) (e : PyExc) (db2 : DB) (tr : List LockEvent)
    (h : op 0 db = ((.error e, db2), tr)) (ht : isTransient e = false) :
    TransactionManager.with_retry op d m db = ⟨.error e, db2, [], 1, tr⟩ := by
  cases m with
  | zero => simp [TransactionManager.with_retry, with_retry_go, h]
  | succ n => simp [TransactionManager.with_retry, with_retry_go, h, ht]

/-- Concrete store used by the scenario witnesses: account X = 12345678 with
$100.00 and account Y = 87654321 with $0.00, empty transaction log. -/
def dbXY : DB := ⟨[("12345678", 10000), ("87654321", 0)], []⟩

/-- Concrete store for Scenario A: account X = 12345678 with balance 0. -/
def dbA : DB := ⟨[("12345678", 0)], []⟩

/-- Concrete store for Scenario C with a missing destination: only account
12345678 exists, with $50.00. -/
def dbC : DB := ⟨[("12345678", 5000)], []⟩

/-- Concrete store for Scenario C proper: X = 12345678 with $50.00 and
Y = 87654321 with $0.00. -/
def dbXYlow : DB := ⟨[("12345678", 5000), ("87654321", 0)], []⟩

/-- C1: for an existing account with stored balance b and positive amount a, an
uncontended deposit_funds call succeeds on its first attempt, answers
new_balance = b + a, stores balance b + a, and appends exactly one DEPOSIT
transaction row with no source account, the account as destination and amount a. -/
theorem deposit_adds_amount_and_logs_once (db : DB) (acct : String) (b a : Int)
    (hb : lookupBalance db.accounts acct = some b) (_ha : 0 < a) :
    (DepositService.deposit_funds true db ⟨acct, a⟩).result =
      .ok ⟨acct, b + a, a, "Successfully deposited $" ++ fmtCents a⟩ ∧
    lookupBalance (DepositService.deposit_funds true db ⟨acct, a⟩).db.accounts acct =
      some (b + a) ∧
    (DepositService.deposit_funds true db ⟨acct, a⟩).db.transactions =
      db.transactions ++ [⟨none, acct, a, .DEPOSIT⟩] := by
  have hbody : deposit_body true ⟨acct, a⟩ db =
      ((.ok ⟨acct, b + a, a, "Successfully deposited $" ++ fmtCents a⟩,
        ⟨setBalance db.accounts acct (b + a),
         db.transactions ++ [⟨none, acct, a, .DEPOSIT⟩]⟩),
       [.acq acct true, .rel acct true]) := by
    simp [deposit_body, User.update_balance, hb]
  have hop : atomic_traced (deposit_body true ⟨acct, a⟩) db =
      ((.ok ⟨acct, b + a, a, "Successfully deposited $" ++ fmtCents a⟩,
        ⟨setBalance db.accounts acct (b + a),
         db.transactions ++ [⟨none, acct, a, .DEPOSIT⟩]⟩),
       [.acq acct true, .rel acct true]) := by
    simp [atomic_traced, hbody, TransactionManager.transaction]
  rw [DepositService.deposit_funds,
    with_retry_first_ok _ _ _ _ _ _ _ hop]
  exact ⟨rfl, lookupBalance_setBalance_self _ _ _ _ hb, rfl⟩

/-- Scenario A witness for C1: deposit $100.00 to account 12345678 holding 0. -/
theorem deposit_adds_amount_and_logs_once_witness :
    lookupBalance dbA.accounts "12345678" = some 0 ∧ (0 : Int) < 10000 ∧
    ((DepositService.deposit_funds true dbA ⟨"12345678", 10000⟩).result =
      .ok ⟨"12345678", 0 + 10000, 10000, "Successfully deposited $" ++ fmtCents 10000⟩ ∧
    lookupBalance (DepositService.deposit_funds true dbA ⟨"12345678", 10000⟩).db.accounts
      "12345678" = some (0 + 10000) ∧
    (DepositService.deposit_funds true dbA ⟨"12345678", 10000⟩).db.transactions =
      dbA.transactions ++ [⟨none, "12345678", 10000, .DEPOSIT⟩]) :=
  ⟨rfl, by decide,
    deposit_adds_amount_and_logs_once dbA "12345678" 0 10000 rfl (by decide)⟩

/-- C2: a successful transfer between two distinct existing accounts debits the
source by the amount, credits the destination by the amount (so the sum of the
two balances is conserved), appends exactly one TRANSFER transaction row, and
returns the two updated stored balances. -/
theorem transfer_moves_amount_conserves_sum (db : DB) (fromA toA tid : String)
    (a bf bt : Int) (hne : fromA ≠ toA)
    (hf : lookupBalance db.accounts fromA = some bf)
    (ht : lookupBalance db.accounts toA = some bt) (hge : a ≤ bf) :
    (TransferService.transfer_funds true true none tid db ⟨fromA, toA, a⟩).result =
      .ok ⟨tid, fromA, toA, a, bf - a, bt + a,
           "Successfully transferred $" ++ fmtCents a⟩ ∧
    lookupBalance (TransferService.transfer_funds true true none tid db
      ⟨fromA, toA, a⟩).db.accounts fromA = some (bf - a) ∧
    lookupBalance (TransferService.transfer_funds true true none tid db
      ⟨fromA, toA, a⟩).db.accounts toA = some (bt + a) ∧
    (bf - a) + (bt + a) = bf + bt ∧
    (TransferService.transfer_funds true true none tid db ⟨fromA, toA, a⟩).db.transactions =
      db.transactions ++ [⟨some fromA, toA, a, .TRANSFER⟩] := by
  have hacc1 : User.update_balance db.accounts fromA (-a) =
      setBalance db.accounts fromA (bf - a) := by
    simp [User.update_balance, hf, sub_eq_add_neg]
  have hlook1 : lookupBalance (setBalance db.accounts fromA (bf - a)) toA = some bt := by
    rw [lookupBalance_setBalance_ne _ _ _ _ hne]
    exact ht
  have hacc2 : User.update_balance (setBalance db.accounts fromA (bf - a)) toA a =
      setBalance (setBalance db.accounts fromA (bf - a)) toA (bt + a) := by
    simp [User.update_balance, hlook1]
  have hbody : transfer_body true true none tid ⟨fromA, toA, a⟩ db =
      ((.ok ⟨tid, fromA, toA, a, bf - a, bt + a,
             "Successfully transferred $" ++ fmtCents a⟩,
        ⟨setBalance (setBalance db.accounts fromA (bf - a)) toA (bt + a),
         db.transactions ++ [⟨some fromA, toA, a, .TRANSFER⟩]⟩),
       [.acq (if strLt fromA toA then fromA else toA) true,
        .acq (if strLt fromA toA then toA else fromA) true,
        .rel (if strLt fromA toA then toA else fromA) true,
        .rel (if strLt fromA toA then fromA else toA) true]) := by
    simp [transfer_body, hf, ht, not_lt.mpr hge, hacc1, hacc2]
  have hop : atomic_traced (transfer_body true true none tid ⟨fromA, toA, a⟩) db =
      ((.ok ⟨tid, fromA, toA, a, bf - a, bt + a,
             "Successfully transferred $" ++ fmtCents a⟩,
        ⟨setBalance (setBalance db.accounts fromA (bf - a)) toA (bt + a),
         db.transactions ++ [⟨some fromA, toA, a, .TRANSFER⟩]⟩),
       [.acq (if strLt fromA toA then fromA else toA) true,
        .acq (if strLt fromA toA then toA else fromA) true,
        .rel (if strLt fromA toA then toA else fromA) true,
        .rel (if strLt fromA toA then fromA else toA) true]) := by
    simp [atomic_traced, hbody, TransactionManager.transaction]
  rw [TransferService.transfer_funds, with_retry_first_ok _ _ _ _ _ _ _ hop]
  refine ⟨rfl, ?_, ?_, by ring, rfl⟩
  · rw [lookupBalance_setBalance_ne _ _ _ _ (Ne.symm hne)]
    exact lookupBalance_setBalance_self _ _ _ _ hf
  · exact lookupBalance_setBalance_self _ _ _ _ hlook1

/-- Scenario B witness for C2: X = 12345678 with $100.00, Y = 87654321 with
$0.00, transfer of $40.00. -/
theorem transfer_moves_amount_conserves_sum_witness :
    ("12345678" : String) ≠ "87654321" ∧
    lookupBalance dbXY.accounts "12345678" = some 10000 ∧
    lookupBalance dbXY.accounts "87654321" = some 0 ∧
    (4000 : Int) ≤ 10000 ∧
    ((TransferService.transfer_funds true true none "tB" dbXY
        ⟨"12345678", "87654321", 4000⟩).result =
      .ok ⟨"tB", "12345678", "87654321", 4000, 10000 - 4000, 0 + 4000,
           "Successfully transferred $" ++ fmtCents 4000⟩ ∧
    lookupBalance (TransferService.transfer_funds true true none "tB" dbXY
      ⟨"12345678", "87654321", 4000⟩).db.accounts "12345678" = some (10000 - 4000) ∧
    lookupBalance (TransferService.transfer_funds true true none "tB" dbXY
      ⟨"12345678", "87654321", 4000⟩).db.accounts "87654321" = some (0 + 4000) ∧
    (10000 - 4000 : Int) + (0 + 4000) = 10000 + 0 ∧
    (TransferService.transfer_funds true true none "tB" dbXY
      ⟨"12345678", "87654321", 4000⟩).db.transactions =
      dbXY.transactions ++ [⟨some "12345678", "87654321", 4000, .TRANSFER⟩]) :=
  ⟨by decide, rfl, rfl, by decide,
    transfer_moves_amount_conserves_sum dbXY "12345678" "87654321" "tB" 4000 10000 0
      (by decide) rfl rfl (by decide)⟩

/-- C3 counterexample: account 12345678 holds $50.00 and the destination
87654321 does not exist; the source balance ($50.00) is below the requested
$100.00, yet transfer_funds fails with the destination-not-found ValueError,
not with the insufficient-funds one, because the existence checks run first. -/
theorem insufficient_claim_fails_when_destination_missing :
    (TransferService.transfer_funds true true none "tC" dbC
        ⟨"12345678", "87654321", 10000⟩).result =
      .error (.valueError "Destination account 87654321 not found") ∧
    ("Destination account 87654321 not found" : String) ≠
      "Insufficient balance. Available: $50.00, Required: $100.00" :=
  ⟨rfl, by decide⟩

/-- C3 amended: when both accounts exist, the locks are available and the store
raises no fault, a transfer whose source balance is below the amount fails on
the first attempt with the InsufficientFunds ValueError carrying the available
and required amounts, and the store (balances and transaction log) is exactly
its pre-attempt value. -/
theorem insufficient_funds_rejected_without_mutation (db : DB) (fromA toA tid : String)
    (a bf bt : Int) (hf : lookupBalance db.accounts fromA = some bf)
    (ht : lookupBalance db.accounts toA = some bt) (hlt : bf < a) :
    (TransferService.transfer_funds true true none tid db ⟨fromA, toA, a⟩).result =
      .error (.valueError ("Insufficient balance. Available: $" ++ fmtCents bf ++
        ", Required: $" ++ fmtCents a)) ∧
    (TransferService.transfer_funds true true none tid db ⟨fromA, toA, a⟩).db = db ∧
    (TransferService.transfer_funds true true none tid db ⟨fromA, toA, a⟩).delays = [] ∧
    (TransferService.transfer_funds true true none tid db ⟨fromA, toA, a⟩).attempts = 1 := by
  have hbody : transfer_body true true none tid ⟨fromA, toA, a⟩ db =
      ((.error (.valueError ("Insufficient balance. Available: $" ++ fmtCents bf ++
          ", Required: $" ++ fmtCents a)), db),
       [.acq (if strLt fromA toA then fromA else toA) true,
        .acq (if strLt fromA toA then toA else fromA) true,
        .rel (if strLt fromA toA then toA else fromA) true,
        .rel (if strLt fromA toA then fromA else toA) true]) := by
    simp [transfer_body, hf, ht, hlt]
  have hop : atomic_traced (transfer_body true true none tid ⟨fromA, toA, a⟩) db =
      ((.error (.valueError ("Insufficient balance. Available: $" ++ fmtCents bf ++
          ", Required: $" ++ fmtCents a)), db),
       [.acq (if strLt fromA toA then fromA else toA) true,
        .acq (if strLt fromA toA then toA else fromA) true,
        .rel (if strLt fromA toA then toA else fromA) true,
        .rel (if strLt fromA toA then fromA else toA) true]) := by
    simp [atomic_traced, hbody, TransactionManager.transaction]
  rw [TransferService.transfer_funds,
    with_retry_first_nonTransient
      (fun _ d => atomic_traced (transfer_body true true none tid ⟨fromA, toA, a⟩) d)
      _ _ _ _ _ _ hop rfl]
  exact ⟨rfl, rfl, rfl, rfl⟩

/-- Scenario C witness for the amended C3: X = 12345678 with $50.00 and
Y = 87654321 existing with $0.00; transfer of $100.00 is rejected and nothing
changes. -/
theorem insufficient_funds_rejected_without_mutation_witness :
    lookupBalance dbXYlow.accounts "12345678" = some 5000 ∧
    lookupBalance dbXYlow.accounts "87654321" = some 0 ∧
    (5000 : Int) < 10000 ∧
    ((TransferService.transfer_funds true true none "tC2" dbXYlow
        ⟨"12345678", "87654321", 10000⟩).result =
      .error (.valueError ("Insufficient balance. Available: $" ++ fmtCents 5000 ++
        ", Required: $" ++ fmtCents 10000)) ∧
    (TransferService.transfer_funds true true none "tC2" dbXYlow
      ⟨"12345678", "87654321", 10000⟩).db = dbXYlow ∧
    (TransferService.transfer_funds true true none "tC2" dbXYlow
      ⟨"12345678", "87654321", 10000⟩).delays = [] ∧
    (TransferService.transfer_funds true true none "tC2" dbXYlow
      ⟨"12345678", "87654321", 10000⟩).attempts = 1) :=
  ⟨rfl, rfl, by decide,
    insufficient_funds_rejected_without_mutation dbXYlow "12345678" "87654321" "tC2"
      10000 5000 0 rfl rfl (by decide)⟩

/-- C4: whatever unit of work runs under the atomic operation wrapper, a normal
return commits the session state the work produced, and an exception rolls the
scope back to the pre-transaction state (discarding any pending partial writes)
and re-raises the very same exception. -/
theorem atomic_commit_or_rollback {α : Type} (work : DB → Except PyExc α × DB) (db : DB) :
    (∀ (a : α) (db2 : DB), work db = (.ok a, db2) →
      atomic_operation work db = (.ok a, db2)) ∧
    (∀ (e : PyExc) (db2 : DB), work db = (.error e, db2) →
      atomic_operation work db = (.error e, db)) := by
  constructor
  · intro a db2 h
    simp [atomic_operation, TransactionManager.transaction, h]
  · intro e db2 h
    simp [atomic_operation, TransactionManager.transaction, h]

/-- Witness for C4: a unit of work that wrote into the session (state dbXY) and
then raised an IntegrityError is rolled back to the original store dbA with the
same exception, and a normally returning unit of work is committed. -/
theorem atomic_commit_or_rollback_witness :
    ((fun (_ : DB) => ((.error (.integrityError "UNIQUE constraint failed") :
        Except PyExc Unit), dbXY)) dbA =
      (.error (.integrityError "UNIQUE constraint failed"), dbXY) ∧
    atomic_operation (fun (_ : DB) =>
        ((.error (.integrityError "UNIQUE constraint failed") : Except PyExc Unit), dbXY)) dbA =
      (.error (.integrityError "UNIQUE constraint failed"), dbA)) ∧
    ((fun (_ : DB) => ((.ok () : Except PyExc Unit), dbXY)) dbA = (.ok (), dbXY) ∧
    atomic_operation (fun (_ : DB) => ((.ok () : Except PyExc Unit), dbXY)) dbA =
      (.ok (), dbXY)) :=
  ⟨⟨rfl, (atomic_commit_or_rollback _ dbA).2 _ _ rfl⟩,
   ⟨rfl, (atomic_commit_or_rollback _ dbA).1 _ _ rfl⟩⟩

/-- Operation that fails with a transient OperationalError on every attempt,
leaving the (rolled back) store unchanged and producing no lock events. -/
def storeDown : Nat → DB → (Except PyExc Unit × DB) × List LockEvent :=
  fun _ db => ((.error (.operationalError "connection lost"), db), [])

/-- C5 counterexample: under the mutating-operation policy (max_retries = 3,
base delay 100 ms) a persistently transient operation is attempted 4 times in
total with backoff delays 100, 200, 400 ms, not the 3 attempts the claim
states: range(max_retries + 1) makes max_retries the number of retries after
the first attempt. -/
theorem retry_runs_four_attempts_for_mutating :
    (TransactionManager.with_retry storeDown TransactionManager.RETRY_DELAY 3 dbA).attempts
      = 4 ∧
    (TransactionManager.with_retry storeDown TransactionManager.RETRY_DELAY 3 dbA).attempts
      ≠ 3 ∧
    (TransactionManager.with_retry storeDown TransactionManager.RETRY_DELAY 3 dbA).delays
      = [100, 200, 400] :=
  ⟨rfl, by decide, rfl⟩

/-- C5 amended: under the retry harness a first-attempt success returns at
once; a non-transient failure propagates immediately with no retry under both
policies; a transient failure is retried after a baseDelay * 2 ^ attempt wait
(base 100 ms); the mutating policy (max_retries = 3) runs at most 4 attempts
with delays 100, 200, 400 ms and then propagates the last transient failure,
and the read-only policy (max_retries = 2) runs at most 3 attempts with delays
100, 200 ms. -/
theorem retry_policy_behaviour {α : Type}
    (op : Nat → DB → (Except PyExc α × DB) × List LockEvent) (db : DB)
    (err : Nat → PyExc) (tr : Nat → List LockEvent) :
    (∀ (a : α) (db2 : DB) (tr0 : List LockEvent), op 0 db = ((.ok a, db2), tr0) →
      TransactionManager.with_retry op 100 3 db = ⟨.ok a, db2, [], 1, tr0⟩) ∧
    (∀ (e : PyExc) (db2 : DB) (tr0 : List LockEvent), op 0 db = ((.error e, db2), tr0) →
      isTransient e = false →
      TransactionManager.with_retry op 100 3 db = ⟨.error e, db2, [], 1, tr0⟩ ∧
      TransactionManager.with_retry op 100 2 db = ⟨.error e, db2, [], 1, tr0⟩) ∧
    (∀ (e : PyExc) (a : α) (db2 : DB), op 0 db = ((.error e, db), tr 0) →
      isTransient e = true → op 1 db = ((.ok a, db2), tr 1) →
      TransactionManager.with_retry op 100 3 db =
        ⟨.ok a, db2, [100], 2, tr 0 ++ tr 1⟩) ∧
    ((∀ i, op i db = ((.error (err i), db), tr i)) → (∀ i, isTransient (err i) = true) →
      TransactionManager.with_retry op 100 2 db =
        ⟨.error (err 2), db, [100, 200], 3, tr 0 ++ (tr 1 ++ tr 2)⟩ ∧
      TransactionManager.with_retry op 100 3 db =
        ⟨.error (err 3), db, [100, 200, 400], 4, tr 0 ++ (tr 1 ++ (tr 2 ++ tr 3))⟩) := by
  refine ⟨?_, ?_, ?_, ?_⟩
  · intro a db2 tr0 h
    exact with_retry_first_ok op 100 3 db a db2 tr0 h
  · intro e db2 tr0 h ht
    exact ⟨with_retry_first_nonTransient op 100 3 db e db2 tr0 h ht,
           with_retry_first_nonTransient op 100 2 db e db2 tr0 h ht⟩
  · intro e a db2 h0 ht h1
    simp [TransactionManager.with_retry, with_retry_go, h0, ht, h1]
  · intro h ht
    constructor
    · simp [TransactionManager.with_retry, with_retry_go, h 0, h 1, h 2, ht 0, ht 1, ht 2]
    · simp [TransactionManager.with_retry, with_retry_go, h 0, h 1, h 2, h 3,
        ht 0, ht 1, ht 2, ht 3]

/-- Witness for C5 amended: the persistently failing storeDown operation under
both policies. -/
theorem retry_policy_behaviour_witness :
    (∀ i, storeDown i dbA = ((.error (.operationalError "connection lost"), dbA), [])) ∧
    (∀ _i : Nat, isTransient (.operationalError "connection lost") = true) ∧
    TransactionManager.with_retry storeDown 100 2 dbA =
      ⟨.error (.operationalError "connection lost"), dbA, [100, 200], 3,
       [] ++ ([] ++ [])⟩ ∧
    TransactionManager.with_retry storeDown 100 3 dbA =
      ⟨.error (.operationalError "connection lost"), dbA, [100, 200, 400], 4,
       [] ++ ([] ++ ([] ++ []))⟩ := by
  have hrun := (retry_policy_behaviour storeDown dbA
      (fun _ => .operationalError "connection lost") (fun _ => [])).2.2.2
      (fun _ => rfl) (fun _ => rfl)
  exact ⟨fun _ => rfl, fun _ => rfl, hrun.1, hrun.2⟩

/-- C6: in every transfer the lock acquired (or attempted) first belongs to the
lexicographically smaller of the two account numbers, independent of transfer
direction; when the second lock times out, the trace shows the first lock
released before the lock-timeout ValueError propagates; and on every exit path
no lock remains held. -/
theorem transfer_lock_order_and_release (lock1Ok lock2Ok : Bool) (fault : Option PyExc)
    (tid : String) (req : TransferRequest) (db : DB) :
    (req.from_account ≠ req.to_account →
      (∃ ok rest, (transfer_body lock1Ok lock2Ok fault tid req db).2 =
         .acq (stringMin req.from_account req.to_account) ok :: rest) ∧
      stringMin req.from_account req.to_account =
        stringMin req.to_account req.from_account ∧
      ((stringMin req.from_account req.to_account = req.from_account ∧
          strLt (stringMin req.from_account req.to_account) req.to_account = true) ∨
       (stringMin req.from_account req.to_account = req.to_account ∧
          strLt (stringMin req.from_account req.to_account) req.from_account = true))) ∧
    (lock1Ok = true → lock2Ok = false →
      (transfer_body lock1Ok lock2Ok fault tid req db).2 =
        [.acq (stringMin req.from_account req.to_account) true,
         .acq (stringMax req.from_account req.to_account) false,
         .rel (stringMin req.from_account req.to_account) true,
         .rel (stringMax req.from_account req.to_account) false] ∧
      (transfer_body lock1Ok lock2Ok fault tid req db).1.1 =
        .error (.valueError ("Timeout acquiring lock for account " ++
          stringMax req.from_account req.to_account))) ∧
    heldAfter (transfer_body lock1Ok lock2Ok fault tid req db).2 = [] := by
  have hshape : (transfer_body lock1Ok lock2Ok fault tid req db).2 =
      [.acq (stringMin req.from_account req.to_account) false,
       .rel (stringMax req.from_account req.to_account) false] ∨
    (transfer_body lock1Ok lock2Ok fault tid req db).2 =
      [.acq (stringMin req.from_account req.to_account) true,
       .acq (stringMax req.from_account req.to_account) false,
       .rel (stringMin req.from_account req.to_account) true,
       .rel (stringMax req.from_account req.to_account) false] ∨
    (transfer_body lock1Ok lock2Ok fault tid req db).2 =
      [.acq (stringMin req.from_account req.to_account) true,
       .acq (stringMax req.from_account req.to_account) true,
       .rel (stringMax req.from_account req.to_account) true,
       .rel (stringMin req.from_account req.to_account) true] := by
    cases lock1Ok with
    | false => left; simp [transfer_body, stringMin, stringMax]
    | true =>
      cases lock2Ok with
      | false => right; left; simp [transfer_body, stringMin, stringMax]
      | true =>
        right; right
        rcases fault with _ | e
        · rcases hlf : lookupBalance db.accounts req.from_account with _ | bf
          · simp [transfer_body, stringMin, stringMax, hlf]
          · rcases hlt : lookupBalance db.accounts req.to_account with _ | bt
            · simp [transfer_body, stringMin, stringMax, hlf, hlt]
            · by_cases hba : bf < req.amount
              · simp [transfer_body, stringMin, stringMax, hlf, hlt, hba]
              · simp [transfer_body, stringMin, stringMax, hlf, hlt, hba]
        · simp [transfer_body, stringMin, stringMax]
  refine ⟨?_, ?_, ?_⟩
  · intro hne
    refine ⟨?_, stringMin_comm hne, stringMin_strictly_smaller hne⟩
    rcases hshape with h | h | h
    · exact ⟨false, _, h⟩
    · exact ⟨true, _, h⟩
    · exact ⟨true, _, h⟩
  · intro h1 h2
    subst h1
    subst h2
    constructor
    · simp [transfer_body, stringMin, stringMax]
    · simp [transfer_body, stringMin, stringMax]
  · rcases hshape with h | h | h <;> rw [h] <;>
      simp [heldAfter, applyEvent, List.erase_cons_head]

/-- Witness for C6 at a transfer in the direction that goes against the
lexicographic order (from 87654321 to 12345678, with the second acquisition
timing out): the smaller account 12345678 is still locked first and the first
lock is released before the error propagates. -/
theorem transfer_lock_order_and_release_witness :
    ("87654321" : String) ≠ "12345678" ∧
    ((∃ ok rest, (transfer_body true false none "t6" ⟨"87654321", "12345678", 1000⟩
        dbXY).2 = .acq (stringMin "87654321" "12345678") ok :: rest) ∧
      stringMin "87654321" "12345678" = stringMin "12345678" "87654321" ∧
      ((stringMin "87654321" "12345678" = "87654321" ∧
          strLt (stringMin "87654321" "12345678") "12345678" = true) ∨
       (stringMin "87654321" "12345678" = "12345678" ∧
          strLt (stringMin "87654321" "12345678") "87654321" = true))) ∧
    ((transfer_body true false none "t6" ⟨"87654321", "12345678", 1000⟩ dbXY).2 =
        [.acq (stringMin "87654321" "12345678") true,
         .acq (stringMax "87654321" "12345678") false,
         .rel (stringMin "87654321" "12345678") true,
         .rel (stringMax "87654321" "12345678") false] ∧
      (transfer_body true false none "t6" ⟨"87654321", "12345678", 1000⟩ dbXY).1.1 =
        .error (.valueError ("Timeout acquiring lock for account " ++
          stringMax "87654321" "12345678"))) ∧
    heldAfter (transfer_body true false none "t6" ⟨"87654321", "12345678", 1000⟩ dbXY).2
      = [] := by
  have h := transfer_lock_order_and_release true false none "t6"
    ⟨"87654321", "12345678", 1000⟩ dbXY
  exact ⟨by decide, h.1 (by decide), h.2.1 rfl rfl, h.2.2⟩

/-- C7: a lock-acquisition timeout in deposit_funds or transfer_funds raises a
ValueError, which the retry harness classifies as non-retryable: the composed
service runs exactly one attempt, sleeps no backoff delay, and propagates the
lock-timeout error with the store unchanged.  Shown for the deposit lock, the
first transfer lock and the second transfer lock. -/
theorem lock_timeout_propagated_without_retry (db : DB) (dreq : DepositRequest)
    (treq : TransferRequest) (lock2Ok : Bool) (fault : Option PyExc) (tid : String) :
    DepositService.deposit_funds false db dreq =
      ⟨.error (.valueError ("Timeout acquiring lock for account " ++ dreq.account_number)),
       db, [], 1, [.acq dreq.account_number false, .rel dreq.account_number false]⟩ ∧
    TransferService.transfer_funds false lock2Ok fault tid db treq =
      ⟨.error (.valueError ("Timeout acquiring lock for account " ++
         stringMin treq.from_account treq.to_account)), db, [], 1,
       [.acq (stringMin treq.from_account treq.to_account) false,
        .rel (stringMax treq.from_account treq.to_account) false]⟩ ∧
    TransferService.transfer_funds true false fault tid db treq =
      ⟨.error (.valueError ("Timeout acquiring lock for account " ++
         stringMax treq.from_account treq.to_account)), db, [], 1,
       [.acq (stringMin treq.from_account treq.to_account) true,
        .acq (stringMax treq.from_account treq.to_account) false,
        .rel (stringMin treq.from_account treq.to_account) true,
        .rel (stringMax treq.from_account treq.to_account) false]⟩ := by
  refine ⟨?_, ?_, ?_⟩
  · have hop : atomic_traced (deposit_body false dreq) db =
        ((.error (.valueError ("Timeout acquiring lock for account " ++
            dreq.account_number)), db),
         [.acq dreq.account_number false, .rel dreq.account_number false]) := by
      simp [atomic_traced, deposit_body, TransactionManager.transaction]
    exact with_retry_first_nonTransient
      (fun _ d => atomic_traced (deposit_body false dreq) d) _ _ _ _ _ _ hop rfl
  · have hop : atomic_traced (transfer_body false lock2Ok fault tid treq) db =
        ((.error (.valueError ("Timeout acquiring lock for account " ++
            stringMin treq.from_account treq.to_account)), db),
         [.acq (stringMin treq.from_account treq.to_account) false,
          .rel (stringMax treq.from_account treq.to_account) false]) := by
      simp [atomic_traced, transfer_body, TransactionManager.transaction,
        stringMin, stringMax]
    exact with_retry_first_nonTransient
      (fun _ d => atomic_traced (transfer_body false lock2Ok fault tid treq) d)
      _ _ _ _ _ _ hop rfl
  · have hop : atomic_traced (transfer_body true false fault tid treq) db =
        ((.error (.valueError ("Timeout acquiring lock for account " ++
            stringMax treq.from_account treq.to_account)), db),
         [.acq (stringMin treq.from_account treq.to_account) true,
          .acq (stringMax treq.from_account treq.to_account) false,
          .rel (stringMin treq.from_account treq.to_account) true,
          .rel (stringMax treq.from_account treq.to_account) false]) := by
      simp [atomic_traced, transfer_body, TransactionManager.transaction,
        stringMin, stringMax]
    exact with_retry_first_nonTransient
      (fun _ d => atomic_traced (transfer_body true false fault tid treq) d)
      _ _ _ _ _ _ hop rfl

/-- C8: a transfer request whose source equals its destination (with a
well-formed account number) is rejected by the schema validator with the
same-account error; the route answers 400 before the service runs, so the
store is untouched and no lock event occurs. -/
theorem same_account_transfer_rejected_before_service (lock1Ok lock2Ok : Bool)
    (fault : Option PyExc) (tid : String) (db : DB) (s : String) (a : Int)
    (hs : accountNumberError s = none) :
    transfer_route lock1Ok lock2Ok fault tid db s s a =
      ((.validationError (validateTransferRequest s s a), db), []) ∧
    "Cannot transfer to the same account" ∈ validateTransferRequest s s a ∧
    statusCode (.validationError (validateTransferRequest s s a)) = 400 := by
  have hv : validateTransferRequest s s a =
      "Cannot transfer to the same account" :: (amountError a).toList := by
    simp [validateTransferRequest, hs]
  refine ⟨?_, ?_, rfl⟩
  · simp [transfer_route, hv]
  · rw [hv]
    exact List.mem_cons_self _ _

/-- Witness for C8: transfer from account 12345678 to itself. -/
theorem same_account_transfer_rejected_before_service_witness :
    accountNumberError "12345678" = none ∧
    (transfer_route true true none "t8" dbXY "12345678" "12345678" 1000 =
      ((.validationError (validateTransferRequest "12345678" "12345678" 1000), dbXY), []) ∧
    "Cannot transfer to the same account" ∈
      validateTransferRequest "12345678" "12345678" 1000 ∧
    statusCode (.validationError (validateTransferRequest "12345678" "12345678" 1000))
      = 400) :=
  ⟨rfl, same_account_transfer_rejected_before_service true true none "t8" dbXY
    "12345678" 1000 rfl⟩

/-- C9 counterexample: a non-ValueError infrastructure exception (an
OperationalError) raised inside the transfer critical section is wrapped by the
service into a ValueError, so the route reports it as a 400 client error, not
as the 5xx internal-error outcome the claim states. -/
theorem unexpected_fault_reported_as_client_error :
    (transfer_route true true (some (.operationalError "database connection lost")) "t9"
        dbXY "12345678" "87654321" 1000).1 =
      (.transferFailed "Failed to process transfer: database connection lost", dbXY) ∧
    statusCode (transfer_route true true
        (some (.operationalError "database connection lost")) "t9"
        dbXY "12345678" "87654321" 1000).1.1 = 400 ∧
    (transfer_route true true (some (.operationalError "database connection lost")) "t9"
        dbXY "12345678" "87654321" 1000).1.1 ≠ .internalError :=
  ⟨rfl, rfl, by decide⟩

/-- C9 amended: every failed transfer rolls the atomic scope back (the store
returned to the caller is the pre-attempt store) and is reported with HTTP 400:
business rejections (insufficient funds, missing account) as their own
ValueError message, and any non-ValueError exception raised inside the critical
section wrapped into the ValueError message prefixed with
"Failed to process transfer: ".  Only exceptions that escape the service
wrapper reach the route's 500 branch. -/
theorem transfer_failures_rollback_and_map_to_400 (tid : String) (db : DB)
    (fromA toA : String) (a : Int) (e : PyExc)
    (herrs : validateTransferRequest fromA toA a = []) :
    (∀ bf bt, lookupBalance db.accounts fromA = some bf →
      lookupBalance db.accounts toA = some bt → bf < a →
      (transfer_route true true none tid db fromA toA a).1 =
        (.transferFailed ("Insufficient balance. Available: $" ++ fmtCents bf ++
           ", Required: $" ++ fmtCents a), db) ∧
      statusCode (transfer_route true true none tid db fromA toA a).1.1 = 400) ∧
    (lookupBalance db.accounts fromA = none →
      (transfer_route true true none tid db fromA toA a).1 =
        (.transferFailed ("Source account " ++ fromA ++ " not found"), db) ∧
      statusCode (transfer_route true true none tid db fromA toA a).1.1 = 400) ∧
    ((∀ m, e ≠ .valueError m) →
      (transfer_route true true (some e) tid db fromA toA a).1 =
        (.transferFailed ("Failed to process transfer: " ++ e.msg), db) ∧
      statusCode (transfer_route true true (some e) tid db fromA toA a).1.1 = 400) := by
  refine ⟨?_, ?_, ?_⟩
  · intro bf bt hbf hbt hlt
    have hrun := insufficient_funds_rejected_without_mutation db fromA toA tid a bf bt
      hbf hbt hlt
    constructor
    · simp [transfer_route, herrs, hrun.1, hrun.2.1]
    · simp [transfer_route, herrs, hrun.1, statusCode]
  · intro hbf
    have hop : atomic_traced (transfer_body true true none tid ⟨fromA, toA, a⟩) db =
        ((.error (.valueError ("Source account " ++ fromA ++ " not found")), db),
         [.acq (stringMin fromA toA) true, .acq (stringMax fromA toA) true,
          .rel (stringMax fromA toA) true, .rel (stringMin fromA toA) true]) := by
      simp [atomic_traced, transfer_body, TransactionManager.transaction, hbf,
        stringMin, stringMax]
    have hrun : TransferService.transfer_funds true true none tid db ⟨fromA, toA, a⟩ =
        ⟨.error (.valueError ("Source account " ++ fromA ++ " not found")), db, [], 1,
         [.acq (stringMin fromA toA) true, .acq (stringMax fromA toA) true,
          .rel (stringMax fromA toA) true, .rel (stringMin fromA toA) true]⟩ :=
      with_retry_first_nonTransient
        (fun _ d => atomic_traced (transfer_body true true none tid ⟨fromA, toA, a⟩) d)
        _ _ _ _ _ _ hop rfl
    constructor
    · simp [transfer_route, herrs, hrun]
    · simp [transfer_route, herrs, hrun, statusCode]
  · intro he
    have hwrap : wrapExc "Failed to process transfer: " e =
        .valueError ("Failed to process transfer: " ++ e.msg) := by
      cases e with
      | valueError m => exact absurd rfl (he m)
      | operationalError m => rfl
      | disconnectionError m => rfl
      | sqlTimeoutError m => rfl
      | integrityError m => rfl
      | otherError m => rfl
    have hop : atomic_traced (transfer_body true true (some e) tid ⟨fromA, toA, a⟩) db =
        ((.error (.valueError ("Failed to process transfer: " ++ e.msg)), db),
         [.acq (stringMin fromA toA) true, .acq (stringMax fromA toA) true,
          .rel (stringMax fromA toA) true, .rel (stringMin fromA toA) true]) := by
      simp [atomic_traced, transfer_body, TransactionManager.transaction, hwrap,
        stringMin, stringMax]
    have hrun : TransferService.transfer_funds true true (some e) tid db ⟨fromA, toA, a⟩ =
        ⟨.error (.valueError ("Failed to process transfer: " ++ e.msg)), db, [], 1,
         [.acq (stringMin fromA toA) true, .acq (stringMax fromA toA) true,
          .rel (stringMax fromA toA) true, .rel (stringMin fromA toA) true]⟩ :=
      with_retry_first_nonTransient
        (fun _ d => atomic_traced (transfer_body true true (some e) tid ⟨fromA, toA, a⟩) d)
        _ _ _ _ _ _ hop rfl
    constructor
    · simp [transfer_route, herrs, hrun]
    · simp [transfer_route, herrs, hrun, statusCode]

/-- Witness for the amended C9: on the store where X = 12345678 holds $50.00,
a $100.00 transfer is answered 400 with the store unchanged, and an injected
DisconnectionError inside the critical section is answered 400 with the wrapped
message. -/
theorem transfer_failures_rollback_and_map_to_400_witness :
    validateTransferRequest "12345678" "87654321" 10000 = [] ∧
    lookupBalance dbXYlow.accounts "12345678" = some 5000 ∧
    lookupBalance dbXYlow.accounts "87654321" = some 0 ∧
    (5000 : Int) < 10000 ∧
    ((transfer_route true true none "t9b" dbXYlow "12345678" "87654321" 10000).1 =
      (.transferFailed ("Insufficient balance. Available: $" ++ fmtCents 5000 ++
         ", Required: $" ++ fmtCents 10000), dbXYlow) ∧
     statusCode (transfer_route true true none "t9b" dbXYlow "12345678" "87654321"
       10000).1.1 = 400) ∧
    ((transfer_route true true (some (.disconnectionError "socket closed")) "t9b"
        dbXYlow "12345678" "87654321" 10000).1 =
      (.transferFailed ("Failed to process transfer: " ++
         PyExc.msg (.disconnectionError "socket closed")), dbXYlow) ∧
     statusCode (transfer_route true true (some (.disconnectionError "socket closed"))
       "t9b" dbXYlow "12345678" "87654321" 10000).1.1 = 400) := by
  have h := transfer_failures_rollback_and_map_to_400 "t9b" dbXYlow "12345678" "87654321"
    10000 (.disconnectionError "socket closed") rfl
  exact ⟨rfl, rfl, rfl, by decide, h.1 5000 0 rfl rfl (by decide),
    h.2.2 (fun m hm => PyExc.noConfusion hm)⟩

/-- C10: validate_transfer_preconditions returns its report without touching
the store (the session it hands back is the one it received, on every path,
fault included), never raises (an internal error becomes valid = False with
the message appended to errors), and the report carries existence, balance and
funds-sufficiency for the accounts plus lock-held warnings. -/
theorem validate_preconditions_readonly_and_total (fromLocked toLocked healthy : Bool)
    (fault : Option String) (db : DB) (req : TransferRequest) :
    (TransferService.validate_transfer_preconditions fromLocked toLocked healthy fault
      db req).2 = db ∧
    (∀ m, fault = some m →
      (TransferService.validate_transfer_preconditions fromLocked toLocked healthy fault
        db req).1.valid = false ∧
      (TransferService.validate_transfer_preconditions fromLocked toLocked healthy fault
        db req).1.errors = ["Validation error: " ++ m]) ∧
    (fault = none →
      (∀ bf, lookupBalance db.accounts req.from_account = some bf →
        (TransferService.validate_transfer_preconditions fromLocked toLocked healthy
          fault db req).1.from_info = some ⟨true, bf, decide (req.amount ≤ bf)⟩) ∧
      (lookupBalance db.accounts req.from_account = none →
        (TransferService.validate_transfer_preconditions fromLocked toLocked healthy
          fault db req).1.from_info = none ∧
        (TransferService.validate_transfer_preconditions fromLocked toLocked healthy
          fault db req).1.valid = false ∧
        ("Source account " ++ req.from_account ++ " not found") ∈
          (TransferService.validate_transfer_preconditions fromLocked toLocked healthy
            fault db req).1.errors) ∧
      (∀ bt, lookupBalance db.accounts req.to_account = some bt →
        (TransferService.validate_transfer_preconditions fromLocked toLocked healthy
          fault db req).1.to_info = some ⟨true, bt⟩) ∧
      (fromLocked = true →
        ("Source account " ++ req.from_account ++
          " is currently being used in another transfer") ∈
          (TransferService.validate_transfer_preconditions fromLocked toLocked healthy
            fault db req).1.warnings) ∧
      (toLocked = true →
        ("Destination account " ++ req.to_account ++
          " is currently being used in another transfer") ∈
          (TransferService.validate_transfer_preconditions fromLocked toLocked healthy
            fault db req).1.warnings)) := by
  refine ⟨?_, ?_, ?_⟩
  · rcases fault with _ | m <;> rfl
  · intro m hm
    subst hm
    exact ⟨rfl, rfl⟩
  · intro hf
    subst hf
    refine ⟨?_, ?_, ?_, ?_, ?_⟩
    · intro bf hbf
      by_cases hba : bf < req.amount <;>
        simp [TransferService.validate_transfer_preconditions, hbf, hba]
    · intro hbf
      refine ⟨?_, ?_, ?_⟩
      · simp [TransferService.validate_transfer_preconditions, hbf]
      · simp [TransferService.validate_transfer_preconditions, hbf]
      · simp [TransferService.validate_transfer_preconditions, hbf]
    · intro bt hbt
      simp [TransferService.validate_transfer_preconditions, hbt]
    · intro hl
      subst hl
      simp [TransferService.validate_transfer_preconditions]
    · intro hl
      subst hl
      simp [TransferService.validate_transfer_preconditions]

/-- Witness for C10 on the concrete store dbXY with the source lock held and an
unhealthy connection, plus a faulting run that is converted into a report. -/
theorem validate_preconditions_readonly_and_total_witness :
    (TransferService.validate_transfer_preconditions true false false none dbXY
      ⟨"12345678", "87654321", 1000⟩).2 = dbXY ∧
    (TransferService.validate_transfer_preconditions true false false none dbXY
      ⟨"12345678", "87654321", 1000⟩).1.from_info =
        some ⟨true, 10000, decide ((1000 : Int) ≤ 10000)⟩ ∧
    (TransferService.validate_transfer_preconditions true false false none dbXY
      ⟨"12345678", "87654321", 1000⟩).1.to_info = some ⟨true, 0⟩ ∧
    ("Source account " ++ "12345678" ++ " is currently being used in another transfer") ∈
      (TransferService.validate_transfer_preconditions true false false none dbXY
        ⟨"12345678", "87654321", 1000⟩).1.warnings ∧
    ((TransferService.validate_transfer_preconditions true false false (some "boom") dbXY
      ⟨"12345678", "87654321", 1000⟩).1.valid = false ∧
    (TransferService.validate_transfer_preconditions true false false (some "boom") dbXY
      ⟨"12345678", "87654321", 1000⟩).1.errors = ["Validation error: " ++ "boom"]) := by
  have h := validate_preconditions_readonly_and_total true false false none dbXY
    ⟨"12345678", "87654321", 1000⟩
  have h3 := h.2.2 rfl
  have hb := validate_preconditions_readonly_and_total true false false (some "boom") dbXY
    ⟨"12345678", "87654321", 1000⟩
  exact ⟨h.1, h3.1 10000 rfl, h3.2.2.1 0 rfl, h3.2.2.2.1 rfl, hb.2.1 "boom" rfl⟩

end BricPay
